import Mathlib

/-!
Verification of the `kinderror` derive-macro crate (`src/lib.rs`).

The crate is a compile-time code generator: given an enum annotated with a
`#[kind_error(...)]` attribute, it synthesizes a wrapper error struct holding a
`kind` discriminant and a `source` value, together with a constructor, two
accessors, a `Display` implementation and an `Error` implementation.

This file shallowly embeds the macro:
* the attribute token stream and its parse loop (`impl Parse for KindErrorAttrs`),
* attribute lookup (`parse_kind_error_attrs`),
* the main generator (`kind_error_impl`), whose emitted fragment is modelled
  structurally by `GenPlan`,
* the runtime behaviour of the generated code (`GeneratedError` together with
  its `new` / `kind` / `origin` methods, the generated `Error::source` body and
  the default `Display` body).

External library functions are modelled as follows: `syn::parse_str::<Type>`
and `syn::parse_str::<Visibility>` are parameters bundled in `ExtParsers`
(trusted external sub-parsers); `proc_macro2::Ident::new`, which panics on a
string that is not a valid identifier, is modelled by the `isValidIdent` check
feeding the `MacroResult.panicked` outcome.
-/

namespace Kinderror

/-- A Rust type fragment as re-parsed from a string literal (`syn::Type`).
Kept opaque as its source text: the generator never inspects it. -/
abbrev RustType := String

/-- Model of `syn::Visibility`: inherited (private), `pub`, or a restricted form. -/
inductive Vis where
  | inherited : Vis
  | pub : Vis
  | restricted : String → Vis
deriving DecidableEq, Repr

/-- One token of the attribute body token stream, at the granularity the parse
loop in `impl Parse for KindErrorAttrs` consumes it: identifiers, `=`, `,`,
string literals, boolean literals, and any other token. -/
inductive AttrToken where
  | ident : String → AttrToken
  | eq : AttrToken
  | comma : AttrToken
  | litStr : String → AttrToken
  | litBool : Bool → AttrToken
  | other : AttrToken
deriving DecidableEq, Repr

/-- What a diagnostic is anchored to (the argument of `syn::Error::new_spanned`):
the whole declaration, the `kind_error` attribute, an offending key identifier,
or some other token of the stream. -/
inductive SpanRef where
  | decl : SpanRef
  | attr : SpanRef
  | key : String → SpanRef
  | tok : SpanRef
deriving DecidableEq, Repr

/-- A structured, span-anchored diagnostic (`syn::Error`). -/
structure Diag where
  span : SpanRef
  msg : String
deriving DecidableEq, Repr

/-- The attribute record built by `impl Parse for KindErrorAttrs`
(`struct KindErrorAttrs` in the source). -/
structure KindErrorAttrs where
  source : Option RustType
  new_vis : Option Vis
  name : Option String
  type_vis : Option Vis
  kind_fn_vis : Option Vis
  origin_fn_vis : Option Vis
  source_fn : Bool
  display : Option String
deriving DecidableEq, Repr

/-- The initial record of the parse loop (also returned verbatim when the
attribute is absent): every optional field unset, `source_fn = true`. -/
def KindErrorAttrs.init : KindErrorAttrs :=
  { source := none
    new_vis := none
    name := none
    type_vis := none
    kind_fn_vis := none
    origin_fn_vis := none
    source_fn := true
    display := none }

/-- Equality of fallible results is decidable (needed to evaluate the
embedding on concrete inputs). -/
instance {ε α : Type} [DecidableEq ε] [DecidableEq α] : DecidableEq (Except ε α) := fun a b =>
  match a, b with
  | .ok x, .ok y =>
    if h : x = y then isTrue (by rw [h]) else isFalse (fun hc => h (by injection hc))
  | .error x, .error y =>
    if h : x = y then isTrue (by rw [h]) else isFalse (fun hc => h (by injection hc))
  | .ok _, .error _ => isFalse (fun hc => nomatch hc)
  | .error _, .ok _ => isFalse (fun hc => nomatch hc)

/-- The trusted external string-to-syntax sub-parsers
(`syn::parse_str::<Type>` and `syn::parse_str::<Visibility>`); an error is
reported as a message string. -/
structure ExtParsers where
  parseType : String → Except String RustType
  parseVis : String → Except String Vis

/-- One dispatch step of the parse loop: given the key identifier already read
and the single value token that follows `=`, update the record, re-parsing
string contents through `ExtParsers` for type/visibility keys.  Mirrors the
`match key.to_string().as_str()` block; an unknown key fails with a diagnostic
naming it, anchored at the key, before any value is consumed. -/
def applyKey (P : ExtParsers) (a : KindErrorAttrs) (key : String) (v : AttrToken) :
    Except Diag KindErrorAttrs :=
  match key with
  | "source" =>
    match v with
    | .litStr s =>
      match P.parseType s with
      | .ok ty => .ok { a with source := some ty }
      | .error m => .error ⟨.tok, m⟩
    | _ => .error ⟨.tok, "expected string literal"⟩
  | "new_vis" =>
    match v with
    | .litStr s =>
      match P.parseVis s with
      | .ok vis => .ok { a with new_vis := some vis }
      | .error m => .error ⟨.tok, m⟩
    | _ => .error ⟨.tok, "expected string literal"⟩
  | "name" =>
    match v with
    | .litStr s => .ok { a with name := some s }
    | _ => .error ⟨.tok, "expected string literal"⟩
  | "type_vis" =>
    match v with
    | .litStr s =>
      match P.parseVis s with
      | .ok vis => .ok { a with type_vis := some vis }
      | .error m => .error ⟨.tok, m⟩
    | _ => .error ⟨.tok, "expected string literal"⟩
  | "kind_fn_vis" =>
    match v with
    | .litStr s =>
      match P.parseVis s with
      | .ok vis => .ok { a with kind_fn_vis := some vis }
      | .error m => .error ⟨.tok, m⟩
    | _ => .error ⟨.tok, "expected string literal"⟩
  | "origin_fn_vis" =>
    match v with
    | .litStr s =>
      match P.parseVis s with
      | .ok vis => .ok { a with origin_fn_vis := some vis }
      | .error m => .error ⟨.tok, m⟩
    | _ => .error ⟨.tok, "expected string literal"⟩
  | "source_fn" =>
    match v with
    | .litBool b => .ok { a with source_fn := b }
    | _ => .error ⟨.tok, "expected boolean literal"⟩
  | "display" =>
    match v with
    | .litStr s => .ok { a with display := some s }
    | _ => .error ⟨.tok, "expected string literal"⟩
  | _ => .error ⟨.key key, "unknown attribute key: " ++ key⟩

/-- The `while !input.is_empty()` parse loop of `impl Parse for KindErrorAttrs`:
read an identifier key, an `=`, dispatch on the key to read the value literal,
then require a `,` whenever the stream is not yet exhausted (so a trailing
comma is accepted). -/
def parseAttrTokens (P : ExtParsers) (a : KindErrorAttrs) :
    List AttrToken → Except Diag KindErrorAttrs
  | [] => .ok a
  | .ident key :: .eq :: v :: .comma :: rest =>
    match applyKey P a key v with
    | .error d => .error d
    | .ok a' => parseAttrTokens P a' rest
  | [.ident key, .eq, v] =>
    match applyKey P a key v with
    | .error d => .error d
    | .ok a' => .ok a'
  | .ident key :: .eq :: v :: _ :: _ =>
    match applyKey P a key v with
    | .error d => .error d
    | .ok _ => .error ⟨.tok, "expected `,`"⟩
  | [.ident _] => .error ⟨.tok, "unexpected end of input, expected `=`"⟩
  | .ident _ :: _ :: _ => .error ⟨.tok, "expected `=`"⟩
  | _ :: _ => .error ⟨.tok, "expected identifier"⟩

/-- Model of `syn::Meta` at the granularity `parse_kind_error_attrs` inspects it: a
parenthesized list (carrying its body token stream), a bare path, or a
name-value form. -/
inductive AttrMeta where
  | list : List AttrToken → AttrMeta
  | path : AttrMeta
  | nameValue : String → AttrMeta
deriving DecidableEq, Repr

/-- Whether the meta is the parenthesized-list form. -/
def AttrMeta.isList : AttrMeta → Bool
  | .list _ => true
  | _ => false

/-- One outer attribute on the declaration (`syn::Attribute`): its path
(as a plain name) and its meta form. -/
structure Attribute where
  path : String
  meta : AttrMeta
deriving DecidableEq, Repr

/-- Embedding of `fn parse_kind_error_attrs`: find the first attribute whose path is
`kind_error`; if present it must be in list form (its body is then parsed),
otherwise the defaulted record is returned. -/
def parse_kind_error_attrs (P : ExtParsers) (attrs : List Attribute) :
    Except Diag KindErrorAttrs :=
  match attrs.find? (fun attr => attr.path == "kind_error") with
  | some attr =>
    match attr.meta with
    | .list toks => parseAttrTokens P KindErrorAttrs.init toks
    | _ => .error ⟨.attr, "kind_error attribute must be in the form #[kind_error(...)]"⟩
  | none => .ok KindErrorAttrs.init

/-- Model of `syn::Data`: the shape of the annotated declaration. Variant payloads are
opaque to the generator, so an enum carries only its variant names. -/
inductive Data where
  | enumData : List String → Data
  | structData : Data
  | unionData : Data
deriving DecidableEq, Repr

/-- Whether the declaration is an enum. -/
def Data.isEnum : Data → Bool
  | .enumData _ => true
  | _ => false

/-- Model of `syn::DeriveInput`: identifier, outer attributes, and data shape. -/
structure DeriveInput where
  ident : String
  attrs : List Attribute
  data : Data
deriving DecidableEq, Repr

/-- Validation performed by `proc_macro2::Ident::new`, restricted to ASCII: nonempty, the
first character a letter or `_`, the rest letters, digits or `_`.  A string
failing this check makes `Ident::new` panic. -/
def isValidIdent (s : String) : Bool :=
  match s.data with
  | [] => false
  | c :: cs => (c.isAlpha || c == '_') && cs.all (fun d => d.isAlphanum || d == '_')

/-- Which `Display` implementation the generator emits: the user template used
verbatim (with `kind` and `source` bound to borrows of the stored fields), or
the built-in default body. -/
inductive DisplayImpl where
  | custom : String → DisplayImpl
  | defaultTemplate : DisplayImpl
deriving DecidableEq, Repr

/-- The structural content of the emitted fragment of `kind_error_impl`: the
resolved visibilities, generated struct name, field types, whether the
`Error::source` override is emitted, and which `Display` body is emitted. -/
structure GenPlan where
  typeVis : Vis
  newVis : Vis
  kindFnVis : Vis
  originFnVis : Vis
  name : String
  kindType : String
  sourceType : RustType
  sourceFn : Bool
  display : DisplayImpl
deriving DecidableEq, Repr

/-- Outcome of `kind_error_impl`: a generated fragment, a diagnostic
(`syn::Error`), or a panic (from `Ident::new` on an invalid name string). -/
inductive MacroResult where
  | ok : GenPlan → MacroResult
  | err : Diag → MacroResult
  | panicked : String → MacroResult
deriving DecidableEq, Repr

/-- Whether the invocation panicked. -/
def MacroResult.isPanicked : MacroResult → Bool
  | .panicked _ => true
  | _ => false

/-- Embedding of `fn kind_error_impl`, in source order: reject non-enum inputs, parse the
attribute record, require `source`, resolve defaults
(`new_vis`/`type_vis` inherited, `kind_fn_vis`/`origin_fn_vis` public, name
`"Error"`), build the generated-struct identifier (panicking if the name is
not a valid identifier), and assemble the emitted fragment. -/
def kind_error_impl (P : ExtParsers) (input : DeriveInput) : MacroResult :=
  match input.data with
  | .enumData _ =>
    match parse_kind_error_attrs P input.attrs with
    | .error d => .err d
    | .ok attrs =>
      match attrs.source with
      | none => .err ⟨.decl, "source attribute is required"⟩
      | some source_type =>
        let new_vis := attrs.new_vis.getD .inherited
        let type_vis := attrs.type_vis.getD .inherited
        let kind_fn_vis := attrs.kind_fn_vis.getD .pub
        let origin_fn_vis := attrs.origin_fn_vis.getD .pub
        let name_str := attrs.name.getD ("Error")
        if isValidIdent name_str then
          .ok
            { typeVis := type_vis
              newVis := new_vis
              kindFnVis := kind_fn_vis
              originFnVis := origin_fn_vis
              name := name_str
              kindType := input.ident
              sourceType := source_type
              sourceFn := attrs.source_fn
              display :=
                match attrs.display with
                | some t => .custom t
                | none => .defaultTemplate }
        else
          .panicked ("\x22" ++ name_str ++ "\x22 is not a valid Ident")
  | _ => .err ⟨.decl, "This macro only supports Enum, not for other types"⟩

/-- What the proc-macro entry point hands back to the compiler: the generated
fragment, a `compile_error!` fragment carrying the diagnostic
(`unwrap_or_else(|err| err.to_compile_error())`), or a panic that escapes. -/
inductive Emitted where
  | fragment : GenPlan → Emitted
  | compileError : Diag → Emitted
  | panicked : String → Emitted
deriving DecidableEq, Repr

/-- Whether the emitted outcome is a panic. -/
def Emitted.isPanicked : Emitted → Bool
  | .panicked _ => true
  | _ => false

/-- Embedding of `pub fn kind_error`, after the input declaration has been parsed:
converts a diagnostic into a `compile_error!` fragment. -/
def kind_error (P : ExtParsers) (input : DeriveInput) : Emitted :=
  match kind_error_impl P input with
  | .ok plan => .fragment plan
  | .err d => .compileError d
  | .panicked m => .panicked m

/-- The resolved generated-struct name string is a valid identifier (trivially
satisfied when the attribute record cannot even be parsed, since `Ident::new`
is then never reached). -/
def resolvedNameValid (P : ExtParsers) (input : DeriveInput) : Bool :=
  match parse_kind_error_attrs P input.attrs with
  | .ok attrs => isValidIdent (attrs.name.getD ("Error"))
  | .error _ => true

/-! ## Runtime behaviour of the generated code

The emitted fragment defines `struct #name { kind: #kind_type, source: #source_type }`
with methods `new`, `kind`, `origin`, a `Display` impl and an `Error` impl.
`GeneratedError K S` embeds it, with the struct fields named `kindField` /
`sourceField` so the accessor methods can keep their source names. -/

/-- The generated struct: two owned fields, `kind` and `source`. -/
structure GeneratedError (K S : Type) where
  kindField : K
  sourceField : S
deriving DecidableEq, Repr

/-- The generated constructor `fn new(kind, source) -> Self { Self { kind, source } }`. -/
def GeneratedError.new {K S : Type} (kind : K) (source : S) : GeneratedError K S :=
  { kindField := kind, sourceField := source }

/-- The generated accessor `fn kind(&self) -> &#kind_type { &self.kind }`. -/
def GeneratedError.kind {K S : Type} (e : GeneratedError K S) : K :=
  e.kindField

/-- The generated accessor `fn origin(&self) -> &#source_type { &self.source }`. -/
def GeneratedError.origin {K S : Type} (e : GeneratedError K S) : S :=
  e.sourceField

/-- The generated `Error` impl's `source` behaviour: when `source_fn` is true
the emitted override returns `Some(&self.source)`; when false no override is
emitted and the trait's default body returns `None`. -/
def GeneratedError.errorSource {K S : Type} (source_fn : Bool) (e : GeneratedError K S) :
    Option S :=
  if source_fn then some e.sourceField else none

/-- The default `Display` body,
`write!(f, "error kind: {:?}, source: {:?}", self.kind, self.source)`, given
debug-formatters for the two field types. -/
def GeneratedError.displayDefault {K S : Type} (dbgK : K → String) (dbgS : S → String)
    (e : GeneratedError K S) : String :=
  "error kind: " ++ dbgK e.kindField ++ ", source: " ++ dbgS e.sourceField

/-- Modelled from the spec: instantiation of a display template over the two
placeholders `\x7bkind:?\x7d` and `\x7bsource:?\x7d`, each replaced by the
corresponding debug-rendered field; all other characters are copied verbatim. -/
def substDebugAux (kindDbg sourceDbg : String) : List Char → List Char
  | '\x7b' :: 'k' :: 'i' :: 'n' :: 'd' :: ':' :: '?' :: '\x7d' :: rest =>
    kindDbg.data ++ substDebugAux kindDbg sourceDbg rest
  | '\x7b' :: 's' :: 'o' :: 'u' :: 'r' :: 'c' :: 'e' :: ':' :: '?' :: '\x7d' :: rest =>
    sourceDbg.data ++ substDebugAux kindDbg sourceDbg rest
  | c :: rest => c :: substDebugAux kindDbg sourceDbg rest
  | [] => []

/-- Modelled from the spec: render a display template by substituting the
debug-placeholders (string-level wrapper of `substDebugAux`). -/
def renderTemplate (template : String) (kindDbg sourceDbg : String) : String :=
  ⟨substDebugAux kindDbg sourceDbg template.data⟩

/-- The fixed built-in display template named by the spec. -/
def builtinTemplate : String :=
  "error kind: \x7bkind:?\x7d, source: \x7bsource:?\x7d"

/-! ## Well-formed attribute bodies as key/value pair lists

Any well-formed attribute body is a comma-separated sequence of `key = value`
pairs; `mkToks` lays such a sequence out as the token stream the parse loop
consumes, and `applyAll` is the corresponding sequence of dispatch steps. -/

/-- Token stream of a comma-separated `key = value` pair sequence
(no trailing comma). -/
def mkToks : List (String × AttrToken) → List AttrToken
  | [] => []
  | [(k, v)] => [.ident k, .eq, v]
  | (k, v) :: p :: ps => .ident k :: .eq :: v :: .comma :: mkToks (p :: ps)

/-- Fold the dispatch step over a pair sequence, stopping at the first error. -/
def applyAll (P : ExtParsers) (a : KindErrorAttrs) :
    List (String × AttrToken) → Except Diag KindErrorAttrs
  | [] => .ok a
  | (k, v) :: ps =>
    match applyKey P a k v with
    | .error d => .error d
    | .ok a' => applyAll P a' ps

/-- The closed key set of the attribute mini-language. -/
def knownKeys : List String :=
  ["source", "new_vis", "name", "type_vis", "kind_fn_vis", "origin_fn_vis",
   "source_fn", "display"]

/-- A concrete instance of the trusted external sub-parsers, used to evaluate
the embedding on concrete inputs: a type string parses to itself, and a
visibility string parses to the evident visibility. -/
def simpleParsers : ExtParsers where
  parseType := fun s => .ok s
  parseVis := fun s =>
    if s = "pub" then .ok .pub
    else if s = "" then .ok .inherited
    else .ok (.restricted s)

/-- An enum declaration carrying a single `kind_error` attribute in list form
with the given body token stream. -/
def enumInput (ename : String) (vs : List String) (toks : List AttrToken) : DeriveInput :=
  { ident := ename
    attrs := [{ path := "kind_error", meta := .list toks }]
    data := .enumData vs }

/-! ## Helper lemmas -/

/-- A successful dispatch step leaves every field other than the dispatched
key's untouched (stated for the fields the claims need). -/
theorem applyKey_ok_fields (P : ExtParsers) (a : KindErrorAttrs) (k : String) (v : AttrToken)
    (a' : KindErrorAttrs) (h : applyKey P a k v = .ok a') :
    (k ≠ "display" → a'.display = a.display) ∧
    (k ≠ "source_fn" → a'.source_fn = a.source_fn) ∧
    (k ≠ "source" → a'.source = a.source) := by
  unfold applyKey at h
  split at h
  all_goals (try split at h)
  all_goals (try split at h)
  all_goals simp_all
  all_goals (subst h; simp)

/-- Dispatch on a key outside the closed set fails with the diagnostic naming
the key, anchored at the key, whatever the value token is. -/
theorem applyKey_unknown (P : ExtParsers) (a : KindErrorAttrs) (k : String) (v : AttrToken)
    (hk : k ∉ knownKeys) :
    applyKey P a k v = .error ⟨.key k, "unknown attribute key: " ++ k⟩ := by
  simp only [knownKeys, List.mem_cons, List.mem_singleton, not_or] at hk
  unfold applyKey
  split
  all_goals simp_all

/-- On a well-formed comma-separated pair sequence, the parse loop is exactly
the fold of the dispatch step. -/
theorem parseAttrTokens_mkToks (P : ExtParsers) :
    ∀ (ps : List (String × AttrToken)) (a : KindErrorAttrs),
      parseAttrTokens P a (mkToks ps) = applyAll P a ps := by
  intro ps
  induction ps with
  | nil => intro a; rfl
  | cons p ps ih =>
    intro a
    obtain ⟨k, v⟩ := p
    cases ps with
    | nil =>
      cases hA : applyKey P a k v <;> simp [mkToks, parseAttrTokens, applyAll, hA]
    | cons q qs =>
      cases hA : applyKey P a k v <;>
        simp [mkToks, parseAttrTokens, applyAll, hA, ih]

/-- The dispatch fold splits over list append. -/
theorem applyAll_append (P : ExtParsers) :
    ∀ (ps qs : List (String × AttrToken)) (a : KindErrorAttrs),
      applyAll P a (ps ++ qs) =
        match applyAll P a ps with
        | .ok a' => applyAll P a' qs
        | .error d => .error d := by
  intro ps
  induction ps with
  | nil => intro qs a; rfl
  | cons p ps ih =>
    intro qs a
    obtain ⟨k, v⟩ := p
    cases hA : applyKey P a k v <;> simp [applyAll, hA, ih]

/-- A successful run of the dispatch fold leaves any field untouched whose key
does not occur in the sequence (stated for the fields the claims need). -/
theorem applyAll_ok_fields (P : ExtParsers) :
    ∀ (ps : List (String × AttrToken)) (a a' : KindErrorAttrs),
      applyAll P a ps = .ok a' →
      ("display" ∉ ps.map Prod.fst → a'.display = a.display) ∧
      ("source_fn" ∉ ps.map Prod.fst → a'.source_fn = a.source_fn) ∧
      ("source" ∉ ps.map Prod.fst → a'.source = a.source) := by
  intro ps
  induction ps with
  | nil =>
    intro a a' h
    simp [applyAll] at h
    subst h
    simp
  | cons p ps ih =>
    intro a a' h
    obtain ⟨k, v⟩ := p
    cases hA : applyKey P a k v with
    | error d => simp [applyAll, hA] at h
    | ok a₁ =>
      simp only [applyAll, hA] at h
      obtain ⟨hd, hf, hs⟩ := applyKey_ok_fields P a k v a₁ hA
      obtain ⟨hd', hf', hs'⟩ := ih a₁ a' h
      refine ⟨?_, ?_, ?_⟩ <;>
        · intro hmem
          simp only [List.map_cons, List.mem_cons, not_or] at hmem
          first
            | rw [hd' hmem.2, hd (fun hc => hmem.1 hc.symm)]
            | rw [hf' hmem.2, hf (fun hc => hmem.1 hc.symm)]
            | rw [hs' hmem.2, hs (fun hc => hmem.1 hc.symm)]

/-- Attribute lookup on a declaration carrying exactly the one `kind_error`
list-form attribute reduces to the token parse loop. -/
theorem parse_kind_error_attrs_single (P : ExtParsers) (toks : List AttrToken) :
    parse_kind_error_attrs P [{ path := "kind_error", meta := .list toks }] =
      parseAttrTokens P KindErrorAttrs.init toks := rfl

/-- A body whose first pair has a key outside the closed set fails with the
unknown-key diagnostic, whatever follows. -/
theorem parseAttrTokens_head_unknown (P : ExtParsers) (a : KindErrorAttrs) (k : String)
    (v : AttrToken) (rest : List AttrToken) (hk : k ∉ knownKeys) :
    parseAttrTokens P a (.ident k :: .eq :: v :: rest) =
      .error ⟨.key k, "unknown attribute key: " ++ k⟩ := by
  have hA := applyKey_unknown P a k v hk
  cases rest with
  | nil => simp [parseAttrTokens, hA]
  | cons t rest' => cases t <;> simp [parseAttrTokens, hA]

/-- Characterization of a successful run of the generator on an enum carrying
one list-form `kind_error` attribute: the body parses to a record whose
`source` is set, and the plan's fields are the record's resolved fields. -/
theorem kind_error_impl_enumInput_ok (P : ExtParsers) (ename : String) (vs : List String)
    (toks : List AttrToken) (plan : GenPlan)
    (h : kind_error_impl P (enumInput ename vs toks) = .ok plan) :
    ∃ attrs : KindErrorAttrs,
      parseAttrTokens P KindErrorAttrs.init toks = .ok attrs ∧
      (∃ ty, attrs.source = some ty ∧ plan.sourceType = ty) ∧
      plan.sourceFn = attrs.source_fn ∧
      plan.display = (match attrs.display with
        | some t => DisplayImpl.custom t
        | none => DisplayImpl.defaultTemplate) ∧
      plan.name = attrs.name.getD ("Error") ∧
      plan.kindType = ename := by
  unfold kind_error_impl enumInput at h
  simp only at h
  rw [parse_kind_error_attrs_single] at h
  cases hp : parseAttrTokens P KindErrorAttrs.init toks with
  | error d => rw [hp] at h; simp at h
  | ok attrs =>
    rw [hp] at h
    simp only at h
    cases hs : attrs.source with
    | none => rw [hs] at h; simp at h
    | some ty =>
      rw [hs] at h
      simp only at h
      split at h
      · injection h with h
        subst h
        exact ⟨attrs, rfl, ⟨ty, hs, rfl⟩, rfl, rfl, rfl, rfl⟩
      · simp at h

set_option maxHeartbeats 2000000 in
/-- Instantiating the built-in template with the two debug-rendered fields
produces exactly the concatenation the default `Display` body writes. -/
theorem renderTemplate_builtin (k s : String) :
    renderTemplate builtinTemplate k s = "error kind: " ++ k ++ ", source: " ++ s := by
  unfold renderTemplate builtinTemplate
  have hd : ("error kind: \x7bkind:?\x7d, source: \x7bsource:?\x7d" : String).data =
      ['e', 'r', 'r', 'o', 'r', ' ', 'k', 'i', 'n', 'd', ':', ' ',
       '\x7b', 'k', 'i', 'n', 'd', ':', '?', '\x7d', ',', ' ',
       's', 'o', 'u', 'r', 'c', 'e', ':', ' ',
       '\x7b', 's', 'o', 'u', 'r', 'c', 'e', ':', '?', '\x7d'] := by decide
  rw [hd]
  simp only [substDebugAux]
  apply String.ext
  simp [String.data_append]

/-! ## Claims -/


/-- C1: for every pair of values, the generated constructor stores both
arguments unchanged by field-wise move, and the generated `kind` and `origin`
accessors return exactly the stored `kind` and `source` fields (borrowing is
identity in the embedding; the constructor performs no validation and cannot
panic, being a total Lean function). -/
theorem c1_new_stores_fields (K S : Type) (kind : K) (source : S) :
    (GeneratedError.new kind source).kind = kind ∧
    (GeneratedError.new kind source).origin = source ∧
    GeneratedError.new kind source = { kindField := kind, sourceField := source } :=
  ⟨rfl, rfl, rfl⟩

/-- C2: the generated error-trait implementation exposes a cause exactly when
`source_fn` is true: with `source_fn = false` the cause accessor yields no
cause for every stored source value, with `source_fn = true` it yields the
stored source field; and when the `source_fn` key is absent from the attribute
body of a successful invocation, the plan's `source_fn` is true (the default). -/
theorem c2_source_fn_gates_cause (P : ExtParsers) (ename : String) (vs : List String)
    (ps : List (String × AttrToken)) (plan : GenPlan)
    (habsent : "source_fn" ∉ ps.map Prod.fst)
    (hok : kind_error_impl P (enumInput ename vs (mkToks ps)) = .ok plan) :
    plan.sourceFn = true ∧
    (∀ (K S : Type) (e : GeneratedError K S), GeneratedError.errorSource false e = none) ∧
    (∀ (K S : Type) (e : GeneratedError K S),
      GeneratedError.errorSource true e = some e.sourceField) := by
  obtain ⟨attrs, hp, -, hsf, -, -, -⟩ := kind_error_impl_enumInput_ok P ename vs _ plan hok
  rw [parseAttrTokens_mkToks] at hp
  have hpre := (applyAll_ok_fields P ps _ _ hp).2.1 habsent
  refine ⟨?_, fun K S e => rfl, fun K S e => rfl⟩
  rw [hsf, hpre]
  rfl

/-- C3: when the `display` key is omitted from the attribute body of a
successful invocation, the emitted `Display` implementation is the built-in
default, and its rendered output is, for every stored kind and source value,
exactly the instantiation of the fixed template
`error kind: \x7bkind:?\x7d, source: \x7bsource:?\x7d` with both fields
debug-formatted. -/
theorem c3_default_display_template (P : ExtParsers) (ename : String) (vs : List String)
    (ps : List (String × AttrToken)) (plan : GenPlan)
    (habsent : "display" ∉ ps.map Prod.fst)
    (hok : kind_error_impl P (enumInput ename vs (mkToks ps)) = .ok plan) :
    plan.display = .defaultTemplate ∧
    ∀ (K S : Type) (dbgK : K → String) (dbgS : S → String) (e : GeneratedError K S),
      GeneratedError.displayDefault dbgK dbgS e =
        renderTemplate builtinTemplate (dbgK e.kindField) (dbgS e.sourceField) := by
  obtain ⟨attrs, hp, -, -, hdisp, -, -⟩ := kind_error_impl_enumInput_ok P ename vs _ plan hok
  rw [parseAttrTokens_mkToks] at hp
  have hpre := (applyAll_ok_fields P ps _ _ hp).1 habsent
  simp only [KindErrorAttrs.init] at hpre
  constructor
  · rw [hdisp, hpre]
  · intro K S dbgK dbgS e
    rw [renderTemplate_builtin]
    rfl

/-- C4: when a custom `display` template string is supplied, the emitted
`Display` implementation carries that template verbatim (the template is
universally quantified, so its placeholder names and format specifiers are
not validated); moreover the parser's `display` dispatch step accepts every
string unconditionally and stores it unchanged. -/
theorem c4_custom_display_verbatim (P : ExtParsers) (ename : String) (vs : List String)
    (ps : List (String × AttrToken)) (tmpl : String) (plan : GenPlan)
    (hok : kind_error_impl P
      (enumInput ename vs (mkToks (ps ++ [(("display"), AttrToken.litStr tmpl)]))) = .ok plan) :
    plan.display = .custom tmpl ∧
    ∀ (a : KindErrorAttrs) (t : String),
      applyKey P a ("display") (.litStr t) = .ok { a with display := some t } := by
  obtain ⟨attrs, hp, -, -, hdisp, -, -⟩ := kind_error_impl_enumInput_ok P ename vs _ plan hok
  rw [parseAttrTokens_mkToks, applyAll_append] at hp
  refine ⟨?_, fun a t => rfl⟩
  cases hA : applyAll P KindErrorAttrs.init ps with
  | error d => rw [hA] at hp; simp at hp
  | ok a₁ =>
    rw [hA] at hp
    simp only at hp
    have hstep : applyAll P a₁ [(("display"), AttrToken.litStr tmpl)] =
        .ok { a₁ with display := some tmpl } := rfl
    rw [hstep] at hp
    injection hp with hp
    subst hp
    rw [hdisp]



/-- Witness for C2. -/
theorem c2_source_fn_gates_cause_witness :
    ({ typeVis := .inherited, newVis := .inherited, kindFnVis := .pub, originFnVis := .pub,
       name := "Error", kindType := "ErrorKind", sourceType := "io::Error", sourceFn := true,
       display := .defaultTemplate } : GenPlan).sourceFn = true ∧
    (∀ (K S : Type) (e : GeneratedError K S), GeneratedError.errorSource false e = none) ∧
    (∀ (K S : Type) (e : GeneratedError K S),
      GeneratedError.errorSource true e = some e.sourceField) :=
  c2_source_fn_gates_cause simpleParsers ("ErrorKind") [("First"), ("Second")]
    [(("source"), AttrToken.litStr ("io::Error"))] _ (by decide) (by decide)

/-- Witness for C3. -/
theorem c3_default_display_template_witness :
    ({ typeVis := .inherited, newVis := .inherited, kindFnVis := .pub, originFnVis := .pub,
       name := "DefaultDisplayError", kindType := "DefaultDisplayKind", sourceType := "io::Error",
       sourceFn := true, display := .defaultTemplate } : GenPlan).display = .defaultTemplate ∧
    ∀ (K S : Type) (dbgK : K → String) (dbgS : S → String) (e : GeneratedError K S),
      GeneratedError.displayDefault dbgK dbgS e =
        renderTemplate builtinTemplate (dbgK e.kindField) (dbgS e.sourceField) :=
  c3_default_display_template simpleParsers ("DefaultDisplayKind") [("ErrorA"), ("ErrorB")]
    [(("source"), AttrToken.litStr ("io::Error")), (("name"), AttrToken.litStr ("DefaultDisplayError"))]
    _ (by decide) (by decide)

/-- Witness for C4. -/
theorem c4_custom_display_verbatim_witness :
    ({ typeVis := .inherited, newVis := .inherited, kindFnVis := .pub, originFnVis := .pub,
       name := "CustomDisplayError", kindType := "CustomDisplayKind", sourceType := "io::Error",
       sourceFn := true,
       display := .custom ("Custom error: kind=\x7bkind:?\x7d, source=\x7bsource:?\x7d") } :
      GenPlan).display = .custom ("Custom error: kind=\x7bkind:?\x7d, source=\x7bsource:?\x7d") ∧
    ∀ (a : KindErrorAttrs) (t : String),
      applyKey simpleParsers a ("display") (.litStr t) = .ok { a with display := some t } :=
  c4_custom_display_verbatim simpleParsers ("CustomDisplayKind") [("VariantA"), ("VariantB")]
    [(("source"), AttrToken.litStr ("io::Error")), (("name"), AttrToken.litStr ("CustomDisplayError"))]
    ("Custom error: kind=\x7bkind:?\x7d, source=\x7bsource:?\x7d") _ (by decide)



/-- C5: an attribute body containing a key outside the closed set
\{source, source_fn, new_vis, name, type_vis, kind_fn_vis, origin_fn_vis,
display\} — after any well-formed pairs that dispatch successfully — makes
the invocation fail with a diagnostic naming the offending key, anchored at
that key, and no fragment is generated. -/
theorem c5_unknown_key_rejected (P : ExtParsers) (ename : String) (vs : List String)
    (ps : List (String × AttrToken)) (k : String) (v : AttrToken)
    (ps' : List (String × AttrToken)) (a₁ : KindErrorAttrs)
    (hok : applyAll P KindErrorAttrs.init ps = .ok a₁)
    (hk : k ∉ knownKeys) :
    kind_error_impl P (enumInput ename vs (mkToks (ps ++ (k, v) :: ps'))) =
      .err ⟨.key k, "unknown attribute key: " ++ k⟩ := by
  have h1 : parseAttrTokens P KindErrorAttrs.init (mkToks (ps ++ (k, v) :: ps')) =
      .error ⟨.key k, "unknown attribute key: " ++ k⟩ := by
    rw [parseAttrTokens_mkToks, applyAll_append, hok]
    simp [applyAll, applyKey_unknown P a₁ k v hk]
  simp [kind_error_impl, enumInput, parse_kind_error_attrs_single, h1]

/-- Witness for C5. -/
theorem c5_unknown_key_rejected_witness :
    kind_error_impl simpleParsers
      (enumInput ("ErrorKind") [("First")]
        (mkToks [(("source"), AttrToken.litStr ("io::Error")),
                 (("foo"), AttrToken.litStr ("bar"))])) =
      .err ⟨.key ("foo"), "unknown attribute key: " ++ "foo"⟩ :=
  c5_unknown_key_rejected simpleParsers ("ErrorKind") [("First")]
    [(("source"), AttrToken.litStr ("io::Error"))] ("foo") (AttrToken.litStr ("bar")) []
    { source := some ("io::Error"), new_vis := none, name := none, type_vis := none,
      kind_fn_vis := none, origin_fn_vis := none, source_fn := true, display := none }
    (by decide) (by decide)

/-- C6: when no `kind_error` attribute is present, parsing succeeds with every
optional field at its default and `source` unset, and the invocation then
fails with the `source attribute is required` diagnostic; the same diagnostic
results when the attribute is present but its body never sets `source`. -/
theorem c6_source_required (P : ExtParsers) (ename ename2 : String) (vs vs2 : List String)
    (otherAttrs : List Attribute) (ps : List (String × AttrToken)) (a₁ : KindErrorAttrs)
    (hno : ∀ b ∈ otherAttrs, b.path ≠ "kind_error")
    (hok : applyAll P KindErrorAttrs.init ps = .ok a₁)
    (hsrc : "source" ∉ ps.map Prod.fst) :
    parse_kind_error_attrs P otherAttrs =
      .ok { source := none, new_vis := none, name := none, type_vis := none,
            kind_fn_vis := none, origin_fn_vis := none, source_fn := true, display := none } ∧
    kind_error_impl P { ident := ename, attrs := otherAttrs, data := .enumData vs } =
      .err ⟨.decl, "source attribute is required"⟩ ∧
    kind_error_impl P (enumInput ename2 vs2 (mkToks ps)) =
      .err ⟨.decl, "source attribute is required"⟩ := by
  have hfind : otherAttrs.find? (fun attr => attr.path == "kind_error") = none := by
    rw [List.find?_eq_none]
    intro b hb
    simp [hno b hb]
  have h1 : parse_kind_error_attrs P otherAttrs = .ok KindErrorAttrs.init := by
    unfold parse_kind_error_attrs
    rw [hfind]
  have hsrcnone : a₁.source = none := (applyAll_ok_fields P ps _ _ hok).2.2 hsrc
  refine ⟨h1, ?_, ?_⟩
  · unfold kind_error_impl
    simp only
    rw [h1]
    rfl
  · simp only [kind_error_impl, enumInput, parse_kind_error_attrs_single]
    rw [parseAttrTokens_mkToks, hok]
    simp [hsrcnone]

/-- Witness for C6. -/
theorem c6_source_required_witness :
    parse_kind_error_attrs simpleParsers [{ path := ("derive"), meta := .path }] =
      .ok { source := none, new_vis := none, name := none, type_vis := none,
            kind_fn_vis := none, origin_fn_vis := none, source_fn := true, display := none } ∧
    kind_error_impl simpleParsers
      { ident := ("ErrorKind"), attrs := [{ path := ("derive"), meta := .path }],
        data := .enumData [("First")] } =
      .err ⟨.decl, "source attribute is required"⟩ ∧
    kind_error_impl simpleParsers
      (enumInput ("OtherKind") [("A")] (mkToks [(("name"), AttrToken.litStr ("MyError"))])) =
      .err ⟨.decl, "source attribute is required"⟩ :=
  c6_source_required simpleParsers ("ErrorKind") ("OtherKind") [("First")] [("A")]
    [{ path := ("derive"), meta := .path }] [(("name"), AttrToken.litStr ("MyError"))]
    { source := none, new_vis := none, name := some ("MyError"), type_vis := none,
      kind_fn_vis := none, origin_fn_vis := none, source_fn := true, display := none }
    (by decide) (by decide) (by decide)

/-- C7: for every input declaration that is not an enum the invocation fails,
whatever the attributes, with a diagnostic anchored at the declaration whose
message contains `only supports Enum`, and no fragment is generated. -/
theorem c7_non_enum_rejected (P : ExtParsers) (input : DeriveInput)
    (h : input.data.isEnum = false) :
    kind_error_impl P input =
      .err ⟨.decl, "This macro only supports Enum, not for other types"⟩ ∧
    ("only supports Enum").data <:+: ("This macro only supports Enum, not for other types").data := by
  obtain ⟨eid, attrs, d⟩ := input
  refine ⟨?_, by decide⟩
  cases d with
  | enumData vs => simp [Data.isEnum] at h
  | structData => rfl
  | unionData => rfl

/-- Witness for C7. -/
theorem c7_non_enum_rejected_witness :
    kind_error_impl simpleParsers
      { ident := ("FooStruct"), attrs := [], data := .structData } =
      .err ⟨.decl, "This macro only supports Enum, not for other types"⟩ ∧
    ("only supports Enum").data <:+: ("This macro only supports Enum, not for other types").data :=
  c7_non_enum_rejected simpleParsers
    { ident := ("FooStruct"), attrs := [], data := .structData } (by decide)



/-- C8 counterexample: on a struct whose `kind_error` attribute contains the
unknown key `foo`, the invocation returns the validation diagnostic
`This macro only supports Enum, not for other types`, not the parser's
unknown-key diagnostic — so the attribute is not parsed before the enum-shape
validation rule, contradicting the claimed Parser-then-Validation order. -/
theorem c8_counterexample :
    kind_error_impl simpleParsers
      { ident := ("FooStruct"),
        attrs := [{ path := ("kind_error"),
                    meta := .list [.ident ("foo"), .eq, .litStr ("bar")] }],
        data := .structData } =
      .err ⟨.decl, "This macro only supports Enum, not for other types"⟩ ∧
    kind_error_impl simpleParsers
      { ident := ("FooStruct"),
        attrs := [{ path := ("kind_error"),
                    meta := .list [.ident ("foo"), .eq, .litStr ("bar")] }],
        data := .structData } ≠
      .err ⟨.key ("foo"), "unknown attribute key: foo"⟩ := by
  constructor
  · rfl
  · decide

/-- C8 amended: the enum-shape check runs before attribute parsing — a
non-enum input yields the `only supports Enum` diagnostic even when its
attribute contains an unknown key — while for enum inputs parsing runs before
the remaining validation, so an unknown key yields the parser's diagnostic
rather than the `source attribute is required` one. -/
theorem c8_enum_check_precedes_parse (P : ExtParsers) (input : DeriveInput) (k : String)
    (v : AttrToken) (rest : List AttrToken)
    (h1 : input.data.isEnum = false)
    (h2 : k ∉ knownKeys) :
    (kind_error_impl P input =
       .err ⟨.decl, "This macro only supports Enum, not for other types"⟩ ∧
     kind_error_impl P input ≠ .err ⟨.key k, "unknown attribute key: " ++ k⟩) ∧
    ∀ (ename : String) (vs : List String),
      kind_error_impl P (enumInput ename vs (.ident k :: .eq :: v :: rest)) =
        .err ⟨.key k, "unknown attribute key: " ++ k⟩ := by
  have henum : kind_error_impl P input =
      .err ⟨.decl, "This macro only supports Enum, not for other types"⟩ := by
    obtain ⟨eid, attrs, d⟩ := input
    cases d with
    | enumData vs => simp [Data.isEnum] at h1
    | structData => rfl
    | unionData => rfl
  refine ⟨⟨henum, ?_⟩, ?_⟩
  · rw [henum]
    simp
  · intro ename vs
    simp [kind_error_impl, enumInput, parse_kind_error_attrs_single,
      parseAttrTokens_head_unknown P KindErrorAttrs.init k v rest h2]

/-- Witness for C8 amended. -/
theorem c8_enum_check_precedes_parse_witness :
    (kind_error_impl simpleParsers
       { ident := ("FooStruct"),
         attrs := [{ path := ("kind_error"),
                     meta := .list [.ident ("bogus"), .eq, .litStr ("x")] }],
         data := .unionData } =
       .err ⟨.decl, "This macro only supports Enum, not for other types"⟩ ∧
     kind_error_impl simpleParsers
       { ident := ("FooStruct"),
         attrs := [{ path := ("kind_error"),
                     meta := .list [.ident ("bogus"), .eq, .litStr ("x")] }],
         data := .unionData } ≠
       .err ⟨.key ("bogus"), "unknown attribute key: " ++ "bogus"⟩) ∧
    ∀ (ename : String) (vs : List String),
      kind_error_impl simpleParsers
          (enumInput ename vs [.ident ("bogus"), .eq, .litStr ("x")]) =
        .err ⟨.key ("bogus"), "unknown attribute key: " ++ "bogus"⟩ :=
  c8_enum_check_precedes_parse simpleParsers
    { ident := ("FooStruct"),
      attrs := [{ path := ("kind_error"),
                  meta := .list [.ident ("bogus"), .eq, .litStr ("x")] }],
      data := .unionData }
    ("bogus") (AttrToken.litStr ("x")) [] (by decide) (by decide)

/-- C9 counterexample: with `name = \x22123\x22` (not a valid identifier) the
invocation panics in `Ident::new` instead of returning a structured
diagnostic, refuting the claim that every failure mode is a span-anchored
diagnostic. -/
theorem c9_counterexample :
    kind_error simpleParsers
      (enumInput ("ErrorKind") [("First")]
        (mkToks [(("source"), AttrToken.litStr ("io::Error")),
                 (("name"), AttrToken.litStr ("123"))])) =
      .panicked ("\x22123\x22 is not a valid Ident") := by
  decide

/-- C9 amended: for every input whose resolved generated-struct name (the
`name` value, or the default `Error`) is a valid identifier, the invocation
terminates returning either a complete generated fragment or a single
span-anchored diagnostic, and never panics. -/
theorem c9_no_panic_when_name_valid (P : ExtParsers) (input : DeriveInput)
    (h : resolvedNameValid P input = true) :
    ((∃ plan, kind_error P input = .fragment plan) ∨
     (∃ d, kind_error P input = .compileError d)) ∧
    (kind_error P input).isPanicked = false := by
  unfold resolvedNameValid at h
  unfold kind_error kind_error_impl
  obtain ⟨eid, attrs, d⟩ := input
  cases d with
  | structData => exact ⟨.inr ⟨_, rfl⟩, rfl⟩
  | unionData => exact ⟨.inr ⟨_, rfl⟩, rfl⟩
  | enumData vs =>
    simp only at h ⊢
    cases hp : parse_kind_error_attrs P attrs with
    | error dg =>
      exact ⟨.inr ⟨_, rfl⟩, rfl⟩
    | ok a =>
      rw [hp] at h
      simp only at h ⊢
      cases hs : a.source with
      | none =>
        exact ⟨.inr ⟨_, rfl⟩, rfl⟩
      | some ty =>
        simp only [h]
        exact ⟨.inl ⟨_, rfl⟩, rfl⟩

/-- Witness for C9 amended. -/
theorem c9_no_panic_when_name_valid_witness :
    ((∃ plan, kind_error simpleParsers
        (enumInput ("ErrorKind") [("First")]
          (mkToks [(("source"), AttrToken.litStr ("io::Error"))])) = .fragment plan) ∨
     (∃ d, kind_error simpleParsers
        (enumInput ("ErrorKind") [("First")]
          (mkToks [(("source"), AttrToken.litStr ("io::Error"))])) = .compileError d)) ∧
    (kind_error simpleParsers
      (enumInput ("ErrorKind") [("First")]
        (mkToks [(("source"), AttrToken.litStr ("io::Error"))]))).isPanicked = false :=
  c9_no_panic_when_name_valid simpleParsers
    (enumInput ("ErrorKind") [("First")]
      (mkToks [(("source"), AttrToken.litStr ("io::Error"))])) (by decide)

/-- C10: when the first `kind_error` attribute on the declaration is not in
parenthesized list form, the invocation fails with the diagnostic
`kind_error attribute must be in the form #[kind_error(...)]` anchored at the
attribute; and only that first `kind_error` attribute is consulted — any
later ones are ignored. -/
theorem c10_attr_form_and_first_only (P : ExtParsers) (pre post : List Attribute)
    (a : Attribute)
    (h1 : ∀ b ∈ pre, b.path ≠ "kind_error") (h2 : a.path = "kind_error") :
    (a.meta.isList = false →
      parse_kind_error_attrs P (pre ++ a :: post) =
        .error ⟨.attr, "kind_error attribute must be in the form #[kind_error(...)]"⟩) ∧
    parse_kind_error_attrs P (pre ++ a :: post) = parse_kind_error_attrs P (pre ++ [a]) := by
  have hpre : pre.find? (fun attr => attr.path == "kind_error") = none :=
    List.find?_eq_none.mpr (fun b hb => by simp [h1 b hb])
  have hfind : ∀ post' : List Attribute,
      (pre ++ a :: post').find? (fun attr => attr.path == "kind_error") = some a := by
    intro post'
    rw [List.find?_append, hpre]
    simp [List.find?_cons_of_pos, h2]
  constructor
  · intro hform
    unfold parse_kind_error_attrs
    rw [hfind post]
    cases hm : a.meta with
    | list toks => rw [hm] at hform; simp [AttrMeta.isList] at hform
    | path => simp [hm]
    | nameValue s => simp [hm]
  · unfold parse_kind_error_attrs
    rw [hfind post, hfind []]

/-- Witness for C10. -/
theorem c10_attr_form_and_first_only_witness :
    ((Attribute.mk ("kind_error") (.nameValue ("x"))).meta.isList = false →
      parse_kind_error_attrs simpleParsers
          ([{ path := ("derive"), meta := .path }] ++
            { path := ("kind_error"), meta := .nameValue ("x") } ::
            [{ path := ("kind_error"), meta := .list [] }]) =
        .error ⟨.attr, "kind_error attribute must be in the form #[kind_error(...)]"⟩) ∧
    parse_kind_error_attrs simpleParsers
        ([{ path := ("derive"), meta := .path }] ++
          { path := ("kind_error"), meta := .nameValue ("x") } ::
          [{ path := ("kind_error"), meta := .list [] }]) =
      parse_kind_error_attrs simpleParsers
        ([{ path := ("derive"), meta := .path }] ++
          [{ path := ("kind_error"), meta := .nameValue ("x") }]) :=
  c10_attr_form_and_first_only simpleParsers
    [{ path := ("derive"), meta := .path }]
    [{ path := ("kind_error"), meta := .list [] }]
    { path := ("kind_error"), meta := .nameValue ("x") }
    (by decide) (by decide)


end Kinderror
